import Mathlib

/-!
Verification of the RAG Document Assistant frontend: a shallow
embedding of `src/components/ChatPanel.js`, `src/components/DocumentPanel.js`,
`src/services/api.js`, `src/api.js` and `App.js`, together with
spec-modelled fragments of the Django backend (which is not part of
the provided sources) where a claim depends on it.
-/

namespace RagApp

/-- A retrieval citation attached to assistant messages
(the `sources` entries of a query response: page number, relevance
score, content snippet). -/
structure Source where
  page_number : Nat
  relevance_score : ℚ
  content : String
deriving Repr, DecidableEq

/-- A chat message as built by `ChatPanel.handleSubmit`: user messages
are `{role, content}`; assistant messages add `sources`; the failure
message adds `error: true`. Absent JS fields are the defaults. -/
structure ChatMessage where
  role : String
  content : String
  sources : Option (List Source) := none
  error : Bool := false
deriving Repr, DecidableEq

/-- The response body of `POST /query/` consumed by `askQuestion`. -/
structure QueryResponse where
  answer : String
  session_id : String
  sources : List Source
deriving Repr, DecidableEq

/-- A query request body. `services/api.js` sends `{question}` plus
`session_id` when truthy (never `top_k`); `src/api.js` sends
`{question, top_k}`. `none` means the field is absent from the JSON. -/
structure QueryPayload where
  question : String
  session_id : Option String := none
  top_k : Option Nat := none
deriving Repr, DecidableEq

/-- JavaScript `String.prototype.trim`, modelled on the character
list: strip whitespace from both ends. -/
def jsTrim (s : String) : String :=
  String.mk ((s.data.dropWhile Char.isWhitespace).reverse.dropWhile Char.isWhitespace).reverse

/-- JavaScript `String.prototype.toLowerCase` (ASCII case folding). -/
def jsToLower (s : String) : String :=
  String.mk (s.data.map Char.toLower)

/-- JavaScript `String.prototype.endsWith`. -/
def jsEndsWith (s post : String) : Bool :=
  List.isSuffixOf post.data s.data

/-- JavaScript truthiness of a possibly-null string, as used by
`if (sessionId)`: null and the empty string are falsy. -/
def jsTruthy : Option String → Bool
  | none => false
  | some s => s != ""

/-- `services/api.js` `askQuestion`: build `{question}`, attach
`session_id` only when the stored id is truthy, post to `/query/`. -/
def askQuestion (question : String) (sessionId : Option String) : QueryPayload :=
  if jsTruthy sessionId then
    { question := question, session_id := sessionId }
  else
    { question := question }

/-- The `ChatPanel` component state touched by `handleSubmit`:
`messages`, `input`, `loading`, `sessionId`. -/
structure ChatState where
  messages : List ChatMessage
  input : String
  loading : Bool
  sessionId : Option String
deriving Repr, DecidableEq

/-- The fixed text stored when the awaited `askQuestion` call throws. -/
def errorText : String :=
  "Sorry, I encountered an error processing your question. Please try again."

/-- The user message appended before the query is awaited. -/
def userMessage (question : String) : ChatMessage :=
  { role := "user", content := question }

/-- The assistant message appended on a successful response. -/
def assistantMessage (r : QueryResponse) : ChatMessage :=
  { role := "assistant", content := r.answer, sources := some r.sources }

/-- The error-flagged assistant message appended when the query fails. -/
def errorMessage : ChatMessage :=
  { role := "assistant", content := errorText, error := true }

/-- The observable result of one `handleSubmit` run: the final
component state and the query requests issued during the run. -/
structure SubmitResult where
  state : ChatState
  requests : List QueryPayload
deriving Repr, DecidableEq

/-- `ChatPanel.handleSubmit` with the outcome of the awaited
`askQuestion` call made explicit. It returns immediately when the
trimmed input is empty or a query is in flight; otherwise it clears the
input, appends the user message, issues the query and, on success,
stores the returned session id and appends the assistant answer with
its sources, or, on failure, keeps the session id and appends the fixed
error-flagged message; `loading` is cleared in the `finally` block. -/
def handleSubmit (s : ChatState) (outcome : Except Unit QueryResponse) :
    SubmitResult :=
  if jsTrim s.input == "" || s.loading then
    { state := s, requests := [] }
  else
    let question := jsTrim s.input
    let payload := askQuestion question s.sessionId
    match outcome with
    | Except.ok r =>
        { state :=
            { messages := s.messages ++ [userMessage question, assistantMessage r]
              input := ""
              loading := false
              sessionId := some r.session_id }
          requests := [payload] }
    | Except.error _ =>
        { state :=
            { messages := s.messages ++ [userMessage question, errorMessage]
              input := ""
              loading := false
              sessionId := s.sessionId }
          requests := [payload] }

/-- `ChatPanel.handleNewChat`: clear the log and the stored session id. -/
def handleNewChat (s : ChatState) : ChatState :=
  { s with messages := [], sessionId := none }

/-- The health payload of `GET /health/` consumed by `App.js`. -/
structure Health where
  status : String
  ollama_available : Bool
  available_models : List String := []
deriving Repr, DecidableEq

/-- The `App.js` health effect:
`checkHealth().then(setHealth).catch(() => setHealth({status, ollama_available: false}))`.
The consumer always receives a `Health` value, never an exception. -/
def appLoadHealth (outcome : Except Unit Health) : Health :=
  match outcome with
  | Except.ok h => h
  | Except.error _ => { status := "error", ollama_available := false }

/-- A file handed to `DocumentPanel.handleUpload` (name and byte size,
as on a JS `File` object). -/
structure UploadFile where
  name : String
  size : Nat
deriving Repr, DecidableEq

/-- The client-side extension check
`file.name.toLowerCase().endsWith('.pdf')`. -/
def isPdfName (name : String) : Bool :=
  jsEndsWith (jsToLower name) ".pdf"

/-- The observable result of one `handleUpload` run: the upload
requests issued, in order; the final error banner; and the number of
document-list refetches performed after the loop. -/
structure UploadRun where
  requests : List UploadFile
  error : Option String
  fetchCount : Nat
deriving Repr, DecidableEq

/-- One iteration of the `for (const file of files)` loop in
`DocumentPanel.handleUpload`: a non-PDF name sets the error banner and
skips the file; otherwise `uploadDocument(file)` is attempted and a
thrown error only sets the banner. The accumulator carries the requests
issued so far and the current banner. -/
def uploadStep (outcome : UploadFile → Except Unit Unit)
    (acc : List UploadFile × Option String) (f : UploadFile) :
    List UploadFile × Option String :=
  if isPdfName f.name then
    match outcome f with
    | Except.ok _ => (acc.1 ++ [f], acc.2)
    | Except.error _ => (acc.1 ++ [f], some ("Failed to upload " ++ f.name))
  else
    (acc.1, some "Only PDF files are supported")

/-- `DocumentPanel.handleUpload` with each awaited upload's outcome
made explicit: the banner starts cleared, the files are processed
sequentially by `uploadStep`, and `fetchDocuments()` runs exactly once
after the loop. -/
def handleUpload (outcome : UploadFile → Except Unit Unit)
    (files : List UploadFile) : UploadRun :=
  let r := files.foldl (uploadStep outcome) ([], none)
  { requests := r.1, error := r.2, fetchCount := 1 }

/-- A Document record summary as persisted by the backend
(fields from the data model and REST table of the spec). -/
structure DocumentRec where
  original_filename : String
  file_size : Nat
  status : String
deriving Repr, DecidableEq

/-- The configured maximum upload size: 50 MB. -/
def maxUploadBytes : Nat := 50 * 1024 * 1024

/-- Modelled from the spec: the backend upload endpoint
(`POST /documents`, Django `apps/rag/views.py`, not present under
`src/`) validates the `.pdf` extension and the 50 MB size bound
synchronously, rejecting a violation with a ValidationError (client
error) before any Document record is created; an accepted file yields a
pending Document record. -/
def uploadEndpoint (f : UploadFile) : Except String DocumentRec :=
  if isPdfName f.name then
    if f.size > maxUploadBytes then
      Except.error "ValidationError: file exceeds the 50 MB limit"
    else
      Except.ok { original_filename := f.name, file_size := f.size, status := "pending" }
  else
    Except.error "ValidationError: only PDF files are supported"

/-- The backend document table after one upload request: a record is
appended only when `uploadEndpoint` accepts the file. -/
def applyUpload (docs : List DocumentRec) (f : UploadFile) : List DocumentRec :=
  match uploadEndpoint f with
  | Except.ok d => docs ++ [d]
  | Except.error _ => docs

/-- `src/api.js` `query(question, topK = 3)`: the default parameter
supplies 3 when the caller omits `topK` (`none` here), and the body
always carries `top_k`. -/
def rootQuery (question : String) (topK : Option Nat) : QueryPayload :=
  { question := question, top_k := some (topK.getD 3) }

/-- Modelled from the spec: the backend query orchestrator (not under
`src/`) retrieves `top_k` chunks, defaulting to 3 when the request body
omits `top_k`. -/
def effectiveTopK (requested : Option Nat) : Nat :=
  requested.getD 3

/-- Modelled from the spec: Vector Index `search` (backend, not under
`src/`) returns at most `top_k` results from the ranked chunk list. -/
def search {α : Type} (ranked : List α) (topK : Nat) : List α :=
  ranked.take topK

/-- The API operations implemented by both client modules. -/
inductive ApiOp
  | uploadOp
  | listOp
  | deleteOp
  | queryOp
  | healthOp
deriving Repr, DecidableEq

/-- An HTTP method and a path relative to the `/api` base URL. -/
structure Endpoint where
  httpMethod : String
  path : String
deriving Repr, DecidableEq

/-- The requests issued by `services/api.js` (the axios client used by
the components): `uploadDocument`, `listDocuments`, `deleteDocument`,
`askQuestion`, `checkHealth`. -/
def servicesApi (docId : String) : ApiOp → Endpoint
  | ApiOp.uploadOp => { httpMethod := "POST", path := "/documents/" }
  | ApiOp.listOp => { httpMethod := "GET", path := "/documents/" }
  | ApiOp.deleteOp => { httpMethod := "DELETE", path := "/documents/" ++ docId ++ "/" }
  | ApiOp.queryOp => { httpMethod := "POST", path := "/query/" }
  | ApiOp.healthOp => { httpMethod := "GET", path := "/health/" }

/-- The requests issued by `src/api.js` (the fetch client):
`uploadDocument`, `getDocuments`, `deleteDocument`, `query`,
`healthCheck`. -/
def rootApi (docId : String) : ApiOp → Endpoint
  | ApiOp.uploadOp => { httpMethod := "POST", path := "/documents/upload" }
  | ApiOp.listOp => { httpMethod := "GET", path := "/documents" }
  | ApiOp.deleteOp => { httpMethod := "DELETE", path := "/documents/" ++ docId }
  | ApiOp.queryOp => { httpMethod := "POST", path := "/query" }
  | ApiOp.healthOp => { httpMethod := "GET", path := "/health" }

/-- The REST table of the spec, stated from the spec's words for
comparison with the two client modules. -/
def specApi (docId : String) : ApiOp → Endpoint
  | ApiOp.uploadOp => { httpMethod := "POST", path := "/documents" }
  | ApiOp.listOp => { httpMethod := "GET", path := "/documents" }
  | ApiOp.deleteOp => { httpMethod := "DELETE", path := "/documents/" ++ docId }
  | ApiOp.queryOp => { httpMethod := "POST", path := "/query" }
  | ApiOp.healthOp => { httpMethod := "GET", path := "/health" }

/-- The requests issued by the upload loop are exactly the PDF-named
files, in order, independent of the per-file outcomes. -/
theorem uploadFold_requests (outcome : UploadFile → Except Unit Unit)
    (files : List UploadFile) :
    ∀ acc : List UploadFile × Option String,
      (List.foldl (uploadStep outcome) acc files).1 =
        acc.1 ++ List.filter (fun f => isPdfName f.name) files := by
  induction files with
  | nil => intro acc; simp
  | cons f rest ih =>
      intro acc
      simp only [List.foldl_cons, List.filter_cons]
      by_cases h : isPdfName f.name
      · cases ho : outcome f with
        | ok u => rw [ih]; simp [uploadStep, h, ho]
        | error e => rw [ih]; simp [uploadStep, h, ho]
      · rw [ih]; simp [uploadStep, h]

/-- Once the upload loop has set the error banner it stays set. -/
theorem uploadFold_error_isSome (outcome : UploadFile → Except Unit Unit)
    (files : List UploadFile) :
    ∀ acc : List UploadFile × Option String, acc.2.isSome = true →
      (List.foldl (uploadStep outcome) acc files).2.isSome = true := by
  induction files with
  | nil => intro acc h; simpa using h
  | cons f rest ih =>
      intro acc h
      simp only [List.foldl_cons]
      apply ih
      by_cases hp : isPdfName f.name
      · cases ho : outcome f with
        | ok u => simpa [uploadStep, hp, ho] using h
        | error e => simp [uploadStep, hp, ho]
      · simp [uploadStep, hp]

/-- A skipped non-PDF file or a failed upload leaves the error banner
set at the end of the loop. -/
theorem uploadFold_error_recorded (outcome : UploadFile → Except Unit Unit)
    (files : List UploadFile) (f : UploadFile)
    (hbad : isPdfName f.name = false ∨ outcome f = Except.error ()) :
    ∀ acc : List UploadFile × Option String, f ∈ files →
      (List.foldl (uploadStep outcome) acc files).2.isSome = true := by
  induction files with
  | nil => intro acc h; cases h
  | cons g rest ih =>
      intro acc hmem
      simp only [List.foldl_cons]
      rcases List.mem_cons.mp hmem with heq | hmem
      · subst heq
        apply uploadFold_error_isSome
        rcases hbad with hb | hb
        · simp [uploadStep, hb]
        · by_cases hp : isPdfName f.name <;> simp [uploadStep, hp, hb]
      · exact ih _ hmem

/-- C1: when the generation step fails, `handleSubmit` still records the
user's question in the message log and appends, for that turn, exactly
one error-flagged assistant message carrying the fixed explanatory text
with no sources — never a partial or garbled answer — while every prior
message is preserved. -/
theorem claim_C1_generator_failure_preserves_log
    (s : ChatState) (e : Unit)
    (hin : (jsTrim s.input == "") = false) (hld : s.loading = false) :
    (handleSubmit s (Except.error e)).state.messages =
      s.messages ++ [userMessage (jsTrim s.input), errorMessage] ∧
    (userMessage (jsTrim s.input)).role = "user" ∧
    errorMessage.role = "assistant" ∧
    errorMessage.error = true ∧
    errorMessage.content = errorText ∧
    errorMessage.sources = none := by
  refine ⟨?_, rfl, rfl, rfl, rfl, rfl⟩
  simp [handleSubmit, hin, hld]

/-- C9: a submit whose input trims to the empty string, or which occurs
while a previous query is in flight, returns without issuing any query
request and leaves the component state — message list and stored
session id included — completely unchanged. -/
theorem claim_C9_guard_blocks_submit
    (s : ChatState) (outcome : Except Unit QueryResponse)
    (h : jsTrim s.input = "" ∨ s.loading = true) :
    handleSubmit s outcome = { state := s, requests := [] } := by
  rcases h with h | h <;> simp [handleSubmit, h]

/-- C4: a completed ask appends exactly two new messages to the log — a
user message with the question, then an assistant message with the
answer, in that order — and every message present before the ask keeps
its original content and position. -/
theorem claim_C4_ask_appends_exactly_two
    (s : ChatState) (r : QueryResponse)
    (hin : (jsTrim s.input == "") = false) (hld : s.loading = false) :
    (handleSubmit s (Except.ok r)).state.messages =
      s.messages ++ [userMessage (jsTrim s.input), assistantMessage r] ∧
    (handleSubmit s (Except.ok r)).state.messages.length = s.messages.length + 2 ∧
    (∀ i, i < s.messages.length →
      (handleSubmit s (Except.ok r)).state.messages[i]? = s.messages[i]?) ∧
    (userMessage (jsTrim s.input)).role = "user" ∧
    (assistantMessage r).role = "assistant" := by
  have hmsg : (handleSubmit s (Except.ok r)).state.messages =
      s.messages ++ [userMessage (jsTrim s.input), assistantMessage r] := by
    simp [handleSubmit, hin, hld]
  refine ⟨hmsg, ?_, ?_, rfl, rfl⟩
  · rw [hmsg]; simp
  · intro i hi
    rw [hmsg, List.getElem?_append, if_pos hi]

/-- C5: the session id is threaded explicitly through the component
state: after a new chat the stored id is absent and the next ask omits
`session_id` from its payload; a successful ask stores exactly the
returned session id, which the next ask then carries; and the request
issued by a submit carries exactly the id stored at submit time. -/
theorem claim_C5_session_id_threading
    (s : ChatState) (r : QueryResponse) (q : String)
    (hin : (jsTrim s.input == "") = false) (hld : s.loading = false)
    (hid : (r.session_id == "") = false) :
    ((handleNewChat s).sessionId = none ∧
      (askQuestion q (handleNewChat s).sessionId).session_id = none) ∧
    ((handleSubmit s (Except.ok r)).state.sessionId = some r.session_id ∧
      (askQuestion q (handleSubmit s (Except.ok r)).state.sessionId).session_id =
        some r.session_id) ∧
    (handleSubmit s (Except.ok r)).requests =
      [askQuestion (jsTrim s.input) s.sessionId] := by
  have hsub : (handleSubmit s (Except.ok r)).state.sessionId = some r.session_id := by
    simp [handleSubmit, hin, hld]
  refine ⟨⟨rfl, rfl⟩, ⟨hsub, ?_⟩, ?_⟩
  · rw [hsub]
    have hne : r.session_id ≠ "" := by simpa using hid
    simp [askQuestion, jsTruthy, hne]
  · simp [handleSubmit, hin, hld]

/-- C7: when the caller does not specify `top_k`, the query runs with
`top_k = 3`: the `src/api.js` client fills `top_k: 3` via its default
parameter, and the `services/api.js` client omits `top_k` so the
spec-modelled backend default of 3 applies; the modelled retrieval then
returns at most 3 chunks. -/
theorem claim_C7_default_top_k_three
    (q : String) (sid : Option String) (ranked : List Nat) :
    (rootQuery q none).top_k = some 3 ∧
    (askQuestion q sid).top_k = none ∧
    effectiveTopK (rootQuery q none).top_k = 3 ∧
    effectiveTopK (askQuestion q sid).top_k = 3 ∧
    (search ranked (effectiveTopK (askQuestion q sid).top_k)).length ≤ 3 := by
  have ha : (askQuestion q sid).top_k = none := by
    unfold askQuestion
    by_cases h : jsTruthy sid <;> simp [h]
  refine ⟨rfl, ha, rfl, ?_, ?_⟩
  · rw [ha]; rfl
  · rw [ha]
    show (ranked.take 3).length ≤ 3
    exact List.length_take_le 3 ranked

/-- C6: the claim fails on the code: the two client modules do not issue
requests to the same endpoint paths. For document upload both use POST,
but `services/api.js` posts to `/documents/` (the spec table's
`/documents` plus Django's trailing slash) while `src/api.js` posts to
`/documents/upload`, a path matching neither the other module nor the
spec table; for the other operations `src/api.js` matches the table
exactly and `services/api.js` differs by the trailing slash. -/
theorem claim_C6_upload_endpoint_divergence :
    (servicesApi "d1" ApiOp.uploadOp).httpMethod =
      (rootApi "d1" ApiOp.uploadOp).httpMethod ∧
    (servicesApi "d1" ApiOp.uploadOp).path ≠ (rootApi "d1" ApiOp.uploadOp).path ∧
    (rootApi "d1" ApiOp.uploadOp).path ≠ (specApi "d1" ApiOp.uploadOp).path ++ "/" ∧
    (rootApi "d1" ApiOp.uploadOp).path ≠ (specApi "d1" ApiOp.uploadOp).path ∧
    (servicesApi "d1" ApiOp.uploadOp).path = (specApi "d1" ApiOp.uploadOp).path ++ "/" ∧
    rootApi "d1" ApiOp.listOp = specApi "d1" ApiOp.listOp ∧
    rootApi "d1" ApiOp.queryOp = specApi "d1" ApiOp.queryOp := by
  decide

/-- C2: a file whose name does not end in `.pdf` (case-insensitively) is
rejected by `handleUpload` before any upload request is issued, so it
never reaches the upload endpoint and no Document record is created for
it (the modelled document table is unchanged). -/
theorem claim_C2_non_pdf_rejected_before_request
    (outcome : UploadFile → Except Unit Unit) (files : List UploadFile)
    (f : UploadFile) (hf : isPdfName f.name = false) :
    f ∉ (handleUpload outcome files).requests ∧
    (∀ docs : List DocumentRec, applyUpload docs f = docs) := by
  constructor
  · intro hmem
    have h := uploadFold_requests outcome files ([], none)
    simp only [handleUpload] at hmem
    rw [h] at hmem
    simp only [List.nil_append] at hmem
    rcases List.mem_filter.mp hmem with ⟨_, hp⟩
    rw [hf] at hp
    cases hp
  · intro docs
    simp [applyUpload, uploadEndpoint, hf]

/-- C3: a file larger than the configured 50 MB maximum is rejected by
the upload endpoint with a ValidationError (client error) before any
Document record is created: the endpoint returns an error and the
document table is unchanged. -/
theorem claim_C3_oversize_rejected_before_document
    (docs : List DocumentRec) (f : UploadFile) (h : f.size > maxUploadBytes) :
    (∃ msg, uploadEndpoint f = Except.error msg) ∧ applyUpload docs f = docs := by
  by_cases hp : isPdfName f.name
  · refine ⟨⟨"ValidationError: file exceeds the 50 MB limit", ?_⟩, ?_⟩
    · simp [uploadEndpoint, hp, h]
    · simp [applyUpload, uploadEndpoint, hp, h]
  · refine ⟨⟨"ValidationError: only PDF files are supported", ?_⟩, ?_⟩
    · simp [uploadEndpoint, hp]
    · simp [applyUpload, uploadEndpoint, hp]

/-- C8: the consumer of the health state never sees an exception: the
`App.js` effect converts a failed health check into a health object
whose `ollama_available` is the boolean `false` (with status `error`),
and passes a successful response through unchanged. -/
theorem claim_C8_health_failure_boolean_flag
    (e : Unit) (h : Health) :
    (appLoadHealth (Except.error e)).ollama_available = false ∧
    (appLoadHealth (Except.error e)).status = "error" ∧
    appLoadHealth (Except.ok h) = h :=
  ⟨rfl, rfl, rfl⟩

/-- C10: the files of one upload action are processed sequentially and
independently: the requests issued are exactly the PDF-named files in
their original order (a skipped non-PDF or a failed upload never
prevents a later file's attempt), the document list is refetched
exactly once, and any skipped or failed file leaves the error banner
set. -/
theorem claim_C10_sequential_independent_uploads
    (outcome : UploadFile → Except Unit Unit) (files : List UploadFile) :
    (handleUpload outcome files).requests =
      List.filter (fun f => isPdfName f.name) files ∧
    (handleUpload outcome files).fetchCount = 1 ∧
    ∀ f ∈ files, (isPdfName f.name = false ∨ outcome f = Except.error ()) →
      (handleUpload outcome files).error.isSome = true := by
  refine ⟨?_, rfl, ?_⟩
  · have h := uploadFold_requests outcome files ([], none)
    simpa [handleUpload] using h
  · intro f hf hbad
    have h := uploadFold_error_recorded outcome files f hbad ([], none) hf
    simpa [handleUpload] using h

theorem claim_C1_witness :
    (handleSubmit ⟨[], "hi", false, none⟩ (Except.error ())).state.messages =
      [] ++ [userMessage (jsTrim "hi"), errorMessage] ∧
    (userMessage (jsTrim "hi")).role = "user" ∧
    errorMessage.role = "assistant" ∧
    errorMessage.error = true ∧
    errorMessage.content = errorText ∧
    errorMessage.sources = none :=
  claim_C1_generator_failure_preserves_log ⟨[], "hi", false, none⟩ () (by decide) rfl

theorem claim_C2_witness :
    (⟨"notes.txt", 10⟩ : UploadFile) ∉
      (handleUpload (fun _ => Except.ok ()) [⟨"notes.txt", 10⟩, ⟨"b.pdf", 20⟩]).requests ∧
    (∀ docs : List DocumentRec, applyUpload docs ⟨"notes.txt", 10⟩ = docs) :=
  claim_C2_non_pdf_rejected_before_request (fun _ => Except.ok ()) [⟨"notes.txt", 10⟩, ⟨"b.pdf", 20⟩]
    ⟨"notes.txt", 10⟩ (by decide)

theorem claim_C3_witness :
    (∃ msg, uploadEndpoint ⟨"big.pdf", 52428801⟩ = Except.error msg) ∧
    applyUpload [] ⟨"big.pdf", 52428801⟩ = [] :=
  claim_C3_oversize_rejected_before_document [] ⟨"big.pdf", 52428801⟩ (by decide)

theorem claim_C4_witness :
    (handleSubmit ⟨[userMessage "one", errorMessage], "two", false, some "s1"⟩
        (Except.ok ⟨"a", "s1", []⟩)).state.messages =
      [userMessage "one", errorMessage] ++
        [userMessage (jsTrim "two"), assistantMessage ⟨"a", "s1", []⟩] ∧
    (handleSubmit ⟨[userMessage "one", errorMessage], "two", false, some "s1"⟩
        (Except.ok ⟨"a", "s1", []⟩)).state.messages.length =
      ([userMessage "one", errorMessage] : List ChatMessage).length + 2 ∧
    (∀ i, i < ([userMessage "one", errorMessage] : List ChatMessage).length →
      (handleSubmit ⟨[userMessage "one", errorMessage], "two", false, some "s1"⟩
          (Except.ok ⟨"a", "s1", []⟩)).state.messages[i]? =
        ([userMessage "one", errorMessage] : List ChatMessage)[i]?) ∧
    (userMessage (jsTrim "two")).role = "user" ∧
    (assistantMessage ⟨"a", "s1", []⟩).role = "assistant" :=
  claim_C4_ask_appends_exactly_two ⟨[userMessage "one", errorMessage], "two", false, some "s1"⟩
    ⟨"a", "s1", []⟩ (by decide) rfl

theorem claim_C5_witness :
    ((handleNewChat ⟨[], "hi", false, some "old"⟩).sessionId = none ∧
      (askQuestion "again" (handleNewChat ⟨[], "hi", false, some "old"⟩).sessionId).session_id =
        none) ∧
    ((handleSubmit ⟨[], "hi", false, none⟩
        (Except.ok ⟨"a", "s1", []⟩)).state.sessionId = some "s1" ∧
      (askQuestion "again" (handleSubmit ⟨[], "hi", false, none⟩
          (Except.ok ⟨"a", "s1", []⟩)).state.sessionId).session_id = some "s1") ∧
    (handleSubmit ⟨[], "hi", false, none⟩ (Except.ok ⟨"a", "s1", []⟩)).requests =
      [askQuestion (jsTrim "hi") none] :=
  claim_C5_session_id_threading ⟨[], "hi", false, none⟩ ⟨"a", "s1", []⟩ "again" (by decide) rfl (by decide)

theorem claim_C9_witness :
    handleSubmit ⟨[], "   ", false, none⟩ (Except.error ()) =
      ⟨⟨[], "   ", false, none⟩, []⟩ :=
  claim_C9_guard_blocks_submit ⟨[], "   ", false, none⟩ (Except.error ()) (Or.inl (by decide))

theorem claim_C10_witness :
    (handleUpload (fun _ => Except.ok ()) [⟨"a.txt", 1⟩, ⟨"b.pdf", 2⟩]).requests =
      List.filter (fun f => isPdfName f.name) [⟨"a.txt", 1⟩, ⟨"b.pdf", 2⟩] ∧
    (handleUpload (fun _ => Except.ok ()) [⟨"a.txt", 1⟩, ⟨"b.pdf", 2⟩]).fetchCount = 1 ∧
    (handleUpload (fun _ => Except.ok ()) [⟨"a.txt", 1⟩, ⟨"b.pdf", 2⟩]).error.isSome = true := by
  have h := claim_C10_sequential_independent_uploads (fun _ => Except.ok ()) [⟨"a.txt", 1⟩, ⟨"b.pdf", 2⟩]
  exact ⟨h.1, h.2.1, h.2.2 ⟨"a.txt", 1⟩ (by decide) (Or.inl (by decide))⟩

end RagApp
